import Mathlib

/-!
Shallow embedding of the event-sourced bank account aggregate from
src/src/main.rs. Monetary amounts (f64 in the source) are modelled as ℚ;
the arithmetic the aggregate performs is addition, subtraction and a
comparison with zero, which ℚ represents exactly for the stated claims.
-/

/-- Commands of the aggregate (enum BankAccountCommand in src/src/main.rs). -/
inductive BankAccountCommand where
  | OpenAccount (account_id : String)
  | DepositMoney (amount : ℚ)
  | WithdrawMoney (amount : ℚ)
  | WriteCheck (check_number : String) (amount : ℚ)
deriving DecidableEq, Repr

/-- Domain events of the aggregate (enum BankAccountEvent in src/src/main.rs). -/
inductive BankAccountEvent where
  | AccountOpened (account_id : String)
  | CustomerDepositedMoney (amount : ℚ) (balance : ℚ)
  | CustomerWithdrewCash (amount : ℚ) (balance : ℚ)
  | CustomerWroteCheck (check_number : String) (amount : ℚ) (balance : ℚ)
deriving DecidableEq, Repr

/-- DomainEvent::event_type from src/src/main.rs. -/
def BankAccountEvent.eventType : BankAccountEvent → String
  | .AccountOpened _ => "AccountOpened"
  | .CustomerDepositedMoney _ _ => "CustomerDepositedMoney"
  | .CustomerWithdrewCash _ _ => "CustomerWithdrewCash"
  | .CustomerWroteCheck _ _ _ => "CustomerWroteCheck"

/-- DomainEvent::event_version from src/src/main.rs. -/
def BankAccountEvent.eventVersion : BankAccountEvent → String :=
  fun _ => "1.0"

/-- Rejection reason (struct BankAccountError(String) in src/src/main.rs). -/
structure BankAccountError where
  msg : String
deriving DecidableEq, Repr

/-- Error of the ATM capability (struct AtmError in src/src/main.rs). -/
structure AtmError where
deriving Repr

/-- Error of the check-validation capability (struct CheckingError). -/
structure CheckingError where
deriving Repr

/-- The injected service capability bundle (struct BankAccountServices and
its two inherent methods in src/src/main.rs), modelled as a record of the
two capability functions so that two distinct bundles can be compared. -/
structure BankAccountServices where
  atmWithdrawal : String → ℚ → Except AtmError Unit
  validateCheck : String → String → Except CheckingError Unit

/-- The concrete services value of the source: both capabilities return Ok. -/
def defaultBankAccountServices : BankAccountServices :=
  ⟨fun _ _ => .ok (), fun _ _ => .ok ()⟩

/-- Aggregate state (struct BankAccount in src/src/main.rs). -/
structure BankAccount where
  opened : Bool
  balance : ℚ
deriving DecidableEq, Repr

/-- The derived Default value of BankAccount: opened = false, balance = 0. -/
def BankAccount.defaultState : BankAccount :=
  { opened := false, balance := 0 }

/-- Aggregate::aggregate_type from src/src/main.rs. -/
def BankAccount.aggregateType : String := "Account"

/-- Aggregate::handle from src/src/main.rs (the spec calls it decide):
DepositMoney emits one CustomerDepositedMoney with the new balance;
WithdrawMoney errors with "funds not available" when the new balance is
negative and otherwise emits one CustomerWithdrewCash; every other
command falls to the catch-all arm and returns Ok with no events. -/
def BankAccount.handle (self : BankAccount) (command : BankAccountCommand)
    (_services : BankAccountServices) :
    Except BankAccountError (List BankAccountEvent) :=
  match command with
  | .DepositMoney amount =>
      let balance := self.balance + amount
      .ok [.CustomerDepositedMoney amount balance]
  | .WithdrawMoney amount =>
      let balance := self.balance - amount
      if balance < 0 then
        .error ⟨"funds not available"⟩
      else
        .ok [.CustomerWithdrewCash amount balance]
  | _ => .ok []

/-- Aggregate::apply from src/src/main.rs: AccountOpened sets opened,
the three monetary events overwrite balance with the event's balance. -/
def BankAccount.apply (self : BankAccount) : BankAccountEvent → BankAccount
  | .AccountOpened _ => { self with opened := true }
  | .CustomerDepositedMoney _ balance => { self with balance := balance }
  | .CustomerWithdrewCash _ balance => { self with balance := balance }
  | .CustomerWroteCheck _ _ balance => { self with balance := balance }

/-- Replaying an event history: fold apply over the events in order. -/
def foldEvents (events : List BankAccountEvent) (s : BankAccount) : BankAccount :=
  events.foldl BankAccount.apply s

/-- One command call seen as a state transition: in the source, handle
borrows the aggregate immutably, so the only way returned events change
state is when the caller folds them with apply; on error the state after
the call is the state before it. -/
def handleStep (s : BankAccount) (c : BankAccountCommand)
    (srv : BankAccountServices) :
    BankAccount × Except BankAccountError (List BankAccountEvent) :=
  match s.handle c srv with
  | .ok evs => (foldEvents evs s, .ok evs)
  | .error e => (s, .error e)

/-- True exactly on deposit and withdraw events. -/
def depositOrWithdraw : BankAccountEvent → Bool
  | .CustomerDepositedMoney _ _ => true
  | .CustomerWithdrewCash _ _ => true
  | _ => false

/-- The balance field carried by an event, when it has one. -/
def eventBalance : BankAccountEvent → Option ℚ
  | .AccountOpened _ => none
  | .CustomerDepositedMoney _ b => some b
  | .CustomerWithdrewCash _ b => some b
  | .CustomerWroteCheck _ _ b => some b

/-- Claim C1: handling WithdrawMoney computes new_balance = balance - amount,
returns the error "funds not available" (and hence no events) exactly when
new_balance < 0, and otherwise exactly one CustomerWithdrewCash event
carrying the amount and the new balance. -/
theorem claim_C1_withdraw (s : BankAccount) (a : ℚ) (srv : BankAccountServices) :
    s.handle (.WithdrawMoney a) srv =
      if s.balance - a < 0 then
        Except.error ⟨"funds not available"⟩
      else
        Except.ok [BankAccountEvent.CustomerWithdrewCash a (s.balance - a)] :=
  rfl

/-- Claim C2: handling DepositMoney always succeeds with exactly one
CustomerDepositedMoney event carrying balance + amount; in particular from
the default state with amount 200 the emitted event carries balance 200. -/
theorem claim_C2_deposit (s : BankAccount) (a : ℚ) (srv : BankAccountServices) :
    s.handle (.DepositMoney a) srv =
      Except.ok [BankAccountEvent.CustomerDepositedMoney a (s.balance + a)] ∧
    BankAccount.defaultState.handle (.DepositMoney 200) srv =
      Except.ok [BankAccountEvent.CustomerDepositedMoney 200 200] := by
  refine ⟨rfl, ?_⟩
  simp [BankAccount.handle, BankAccount.defaultState]

/-- Claim C3 fails on the code: from the default state (opened = false),
OpenAccount falls into the catch-all arm of handle and returns Ok with no
events, not an AccountOpened event. -/
theorem claim_C3_counterexample :
    BankAccount.defaultState.opened = false ∧
    BankAccount.defaultState.handle (.OpenAccount "acct-1")
      defaultBankAccountServices ≠
      Except.ok [BankAccountEvent.AccountOpened "acct-1"] ∧
    BankAccount.defaultState.handle (.OpenAccount "acct-1")
      defaultBankAccountServices = Except.ok [] := by
  refine ⟨rfl, ?_, rfl⟩
  simp [BankAccount.handle, BankAccount.defaultState]

/-- Claim C3 amended: for every state with opened = false and every
account_id, handling OpenAccount succeeds, but with the empty event list
(the command is unhandled and falls to the catch-all arm; no AccountOpened
event is produced). -/
theorem claim_C3_open_account (s : BankAccount) (id : String)
    (srv : BankAccountServices) (_h : s.opened = false) :
    s.handle (.OpenAccount id) srv = Except.ok [] :=
  rfl

/-- Witness for claim C3 amended at the default state. -/
theorem claim_C3_open_account_witness :
    BankAccount.defaultState.opened = false ∧
    BankAccount.defaultState.handle (.OpenAccount "acct-1")
      defaultBankAccountServices = Except.ok [] :=
  ⟨rfl, claim_C3_open_account BankAccount.defaultState "acct-1"
    defaultBankAccountServices rfl⟩

/-- Claim C4: whenever handling WithdrawMoney returns Ok and the returned
list holds a CustomerWithdrewCash event, the balance field of that event
is not negative. -/
theorem claim_C4_no_negative_withdrawal (s : BankAccount) (a : ℚ)
    (srv : BankAccountServices) (evs : List BankAccountEvent) (am b : ℚ)
    (h1 : s.handle (.WithdrawMoney a) srv = Except.ok evs)
    (h2 : BankAccountEvent.CustomerWithdrewCash am b ∈ evs) :
    0 ≤ b := by
  by_cases hlt : s.balance - a < 0
  · simp [BankAccount.handle, hlt] at h1
  · simp [BankAccount.handle, hlt] at h1
    subst h1
    simp at h2
    linarith [h2.2]

/-- Witness for claim C4 at state balance 200, withdrawing 100. -/
theorem claim_C4_no_negative_withdrawal_witness : (0 : ℚ) ≤ 100 :=
  claim_C4_no_negative_withdrawal ⟨false, 200⟩ 100 defaultBankAccountServices
    [BankAccountEvent.CustomerWithdrewCash 100 100] 100 100
    (by simp [BankAccount.handle]; norm_num) (by simp)

/-- Folding deposit/withdraw events from any start state gives a balance
equal to the balance field carried by the last event. -/
lemma foldl_apply_last_balance (es : List BankAccountEvent) (s : BankAccount)
    (h1 : es ≠ []) (h2 : ∀ e ∈ es, depositOrWithdraw e = true) :
    some ((es.foldl BankAccount.apply s).balance) = eventBalance (es.getLast h1) := by
  induction es generalizing s with
  | nil => exact absurd rfl h1
  | cons e rest ih =>
    cases rest with
    | nil =>
      cases e with
      | AccountOpened id => simp [depositOrWithdraw] at h2
      | CustomerDepositedMoney a b => simp [BankAccount.apply, eventBalance]
      | CustomerWithdrewCash a b => simp [BankAccount.apply, eventBalance]
      | CustomerWroteCheck cn a b => simp [depositOrWithdraw] at h2
    | cons f fs =>
      rw [List.foldl_cons, List.getLast_cons (by simp)]
      refine ih (s.apply e) (by simp) ?_
      intro x hx
      exact h2 x (List.mem_cons_of_mem e hx)

/-- Claim C5: for every non-empty sequence of deposit and withdraw events,
folding the sequence via apply from the default state yields a state whose
balance equals the balance field carried by the last event. -/
theorem claim_C5_balance_consistency (es : List BankAccountEvent)
    (h1 : es ≠ []) (h2 : ∀ e ∈ es, depositOrWithdraw e = true) :
    some ((foldEvents es BankAccount.defaultState).balance) =
      eventBalance (es.getLast h1) :=
  foldl_apply_last_balance es BankAccount.defaultState h1 h2

/-- Witness for claim C5 on the one-deposit history. -/
theorem claim_C5_balance_consistency_witness :
    ([BankAccountEvent.CustomerDepositedMoney 200 200] : List BankAccountEvent) ≠ [] ∧
    some ((foldEvents [BankAccountEvent.CustomerDepositedMoney 200 200]
        BankAccount.defaultState).balance) =
      eventBalance (([BankAccountEvent.CustomerDepositedMoney 200 200] :
        List BankAccountEvent).getLast (by simp)) :=
  ⟨by simp,
   claim_C5_balance_consistency [BankAccountEvent.CustomerDepositedMoney 200 200]
     (by simp) (by simp [depositOrWithdraw])⟩

/-- Claim C6: replay is deterministic: two runs of folding the same event
sequence from the default state produce identical final states. -/
theorem claim_C6_determinism (E : List BankAccountEvent) (s1 s2 : BankAccount)
    (h1 : s1 = foldEvents E BankAccount.defaultState)
    (h2 : s2 = foldEvents E BankAccount.defaultState) :
    s1 = s2 :=
  h1.trans h2.symm

/-- Witness for claim C6 on a one-event history. -/
theorem claim_C6_determinism_witness :
    foldEvents [BankAccountEvent.AccountOpened "a"] BankAccount.defaultState =
      foldEvents [BankAccountEvent.AccountOpened "a"] BankAccount.defaultState :=
  claim_C6_determinism [BankAccountEvent.AccountOpened "a"] _ _ rfl rfl

/-- Claim C7: apply is total (it is a Lean function with no failure path)
and its per-event effect is: AccountOpened sets opened = true leaving
balance unchanged; the three monetary events set balance to the balance
field carried by the event, leaving opened unchanged. -/
theorem claim_C7_apply_effect (s : BankAccount) (id cn : String) (a b : ℚ) :
    s.apply (.AccountOpened id) = { s with opened := true } ∧
    s.apply (.CustomerDepositedMoney a b) = { s with balance := b } ∧
    s.apply (.CustomerWithdrewCash a b) = { s with balance := b } ∧
    s.apply (.CustomerWroteCheck cn a b) = { s with balance := b } :=
  ⟨rfl, rfl, rfl, rfl⟩

/-- Claim C8: whenever handle returns an error, the state after the call
equals the state before it, the result carries exactly that error, and no
Ok event list is returned alongside. -/
theorem claim_C8_no_op_on_error (s : BankAccount) (c : BankAccountCommand)
    (srv : BankAccountServices) (e : BankAccountError)
    (h : s.handle c srv = Except.error e) :
    (handleStep s c srv).1 = s ∧
    (handleStep s c srv).2 = Except.error e ∧
    ∀ evs, s.handle c srv ≠ Except.ok evs := by
  refine ⟨?_, ?_, ?_⟩ <;> simp [handleStep, h]

/-- Witness for claim C8: withdrawing 200 from the default state errors
and leaves the state unchanged. -/
theorem claim_C8_no_op_on_error_witness :
    BankAccount.defaultState.handle (.WithdrawMoney 200)
      defaultBankAccountServices = Except.error ⟨"funds not available"⟩ ∧
    (handleStep BankAccount.defaultState (.WithdrawMoney 200)
      defaultBankAccountServices).1 = BankAccount.defaultState := by
  have h : BankAccount.defaultState.handle (.WithdrawMoney 200)
      defaultBankAccountServices = Except.error ⟨"funds not available"⟩ := by
    simp [BankAccount.handle, BankAccount.defaultState]
  exact ⟨h, (claim_C8_no_op_on_error BankAccount.defaultState (.WithdrawMoney 200)
    defaultBankAccountServices ⟨"funds not available"⟩ h).1⟩

/-- Claim C9: handling WriteCheck succeeds with the empty event list for
every state, check number and amount (the command falls to the catch-all
arm of handle). -/
theorem claim_C9_write_check (s : BankAccount) (cn : String) (a : ℚ)
    (srv : BankAccountServices) :
    s.handle (.WriteCheck cn a) srv = Except.ok [] :=
  rfl

/-- Claim C10: the result of handle does not depend on the injected
services bundle: any two BankAccountServices values give the same result,
because no command branch invokes a capability. -/
theorem claim_C10_services_independent (s : BankAccount)
    (c : BankAccountCommand) (srv1 srv2 : BankAccountServices) :
    s.handle c srv1 = s.handle c srv2 := by
  cases c <;> rfl
